import Mathlib

/-!
Verification development for a vertical-bounce arcade game.

The definitions below are a shallow embedding of the game's core logic:
the player state machine (idle / airborne / charging), the charge-release
rating and launch-speed computation, the fixed-timestep driver, the
deformable-ground spring simulation, the bullet-time manager, the gesture
classifier and the lane-change request handler.  Numeric state is modelled
with real numbers (the source uses IEEE doubles); purely visual effects
(camera shake, sprite tinting, particle emitters, text fades) mutate no
field that the modelled logic ever reads and are omitted.
-/

set_option maxHeartbeats 1000000

open scoped Classical

noncomputable section

namespace Game

/-! ## Configuration constants (from src/config.ts, values as shipped) -/

namespace Config

def gravity : ℝ := 1500

-- air
def baseFastFallAccel : ℝ := 4000
def fastFallRamp : ℝ := 15000
def maxFastFallAccel : ℝ := 60000
def releaseDecay : ℝ := 0.05
def terminalFallSpeed : ℝ := 15000
def terminalFastFallSpeed : ℝ := 200000
def fastFallChargeTime : ℝ := 0.25
def energyVyCap : ℝ := 6000
def energyAccelCap : ℝ := 6000

-- ground
def impactScale : ℝ := 0.00003
def maxDepth : ℝ := 150
def compressTime : ℝ := 0.12
def compressLogScale : ℝ := 0.5
def yellowDuration0 : ℝ := 0.15
def yellowDurationMin : ℝ := 0.03
def difficultyLogScale : ℝ := 0.8
def difficultyRefHeight : ℝ := 5000
def baseLaunchVelocity : ℝ := -600
def hardCapVelocity : ℝ := 50000
def softCapVelocity : ℝ := 2600
def softCapFactor : ℝ := 0.25
def peakEps : ℝ := 1.0
def sweetHoldGrace0 : ℝ := 0.10
def sweetHoldGraceMin : ℝ := 0.02
def failHoldTime0 : ℝ := 0.12
def failHoldTimeMin : ℝ := 0.03
def overHoldAccelK0 : ℝ := 8.0
def overHoldAccelKGain : ℝ := 6.0
def overHoldAccelTime : ℝ := 0.25
def deadEfficiency : ℝ := 0.05
def absorbRelaxTime : ℝ := 0.02
def settleEps : ℝ := 2
def idleRelaxAfterPeak : ℝ := 0.18
def fatigueTime : ℝ := 0.1
def relaxTime : ℝ := 0.2
def releaseRecoverTime : ℝ := 0.1
def deformFollowTime : ℝ := 0.02

-- display
def pixelsPerMeter : ℝ := 50
def playerCollisionRadius : ℝ := 100
def playerYOffset : ℝ := 80

/-- SAFE_ZONE_PX = 100 * PIXELS_PER_METER as computed in ChargingState. -/
def safeZonePx : ℝ := 100 * pixelsPerMeter

end Config

/-! ## Basic types of the player state machine -/

/-- The launch rating shown to the player (ChargingState.launchActiveControlled). -/
inductive Rating where
  | PERFECT
  | NORMAL
  | FAILED
deriving DecidableEq, Repr

/-- The three states of the player state machine (Slime.state). -/
inductive SlimePhase where
  | idle      -- 'GROUNDED_IDLE'
  | airborne  -- 'AIRBORNE'
  | charging  -- 'GROUND_CHARGING'
deriving DecidableEq, Repr

/-- The logic-relevant fields of the Slime object (src/objects/Slime.ts).
Fields that only drive rendering (text timers, sprite tint, particles,
shake intensities) are omitted: nothing in the modelled logic reads them. -/
structure SlimeS where
  x : ℝ
  y : ℝ
  vy : ℝ
  userAccel : ℝ
  holdTime : ℝ
  prevSpaceDown : Bool
  fastFallEnergy : ℝ
  fastFallTime : ℝ
  fallDistanceSinceApex : ℝ
  fastFallDistance : ℝ
  prevYForFall : ℝ
  landingFallDistance : ℝ
  landingFastFallDistance : ℝ
  impactSpeed : ℝ
  targetCompression : ℝ
  currentCompression : ℝ
  reachedPeak : Bool
  chargeEfficiency : ℝ
  overflow : ℝ
  contactHasInput : Bool
  postPeakHoldTime : ℝ
  holdLockout : Bool
  prevVyForApex : ℝ
  lastApexHeight : ℝ
  landingApexHeight : ℝ
  landingDifficulty : ℝ
  groundDeform : ℝ
  groundRecoverTau : ℝ
  isInYellowZone : Bool
  yellowZoneStartTime : ℝ
  lastLaunchRating : Option Rating
  perfectStreak : ℕ
  phase : SlimePhase
  laneSwitchLocked : Bool
  currentLane : ℤ
  targetLaneX : ℝ
  facingDirection : ℤ

/-- Environment the slime borrows: the ground strip's base y and its
surface-offset query (Ground.getSurfaceOffsetAt), fixed during one
Slime.update call. -/
structure SlimeEnv where
  groundLevel : ℝ
  surf : ℝ → ℝ

/-- Slime.getGroundY: groundLevel - radius + playerYOffset + surfaceOffsetAt(x). -/
def slimeGroundY (env : SlimeEnv) (s : SlimeS) : ℝ :=
  env.groundLevel - Config.playerCollisionRadius + Config.playerYOffset + env.surf s.x

/-- Slime.approach: exponential approach of current toward target. -/
def approach (current target dt tau : ℝ) : ℝ :=
  if tau ≤ 0 then target
  else current + (target - current) * (1 - Real.exp (-dt / tau))

/-- Phaser.Math.Clamp. -/
def clampR (value lo hi : ℝ) : ℝ := max lo (min hi value)

/-! ## State-entry actions (ISlimeState.enter, applied by Slime.transitionTo) -/

/-- IdleState.enter: rest on the ground surface with no velocity. -/
def enterIdle (env : SlimeEnv) (s : SlimeS) : SlimeS :=
  { s with vy := 0, y := slimeGroundY env s, currentCompression := 0,
           phase := SlimePhase.idle }

/-- ChargingState.enter. -/
def enterCharging (s : SlimeS) : SlimeS :=
  { s with currentCompression := 0, reachedPeak := false, chargeEfficiency := 1,
           postPeakHoldTime := 0, holdLockout := false, contactHasInput := false,
           phase := SlimePhase.charging }

/-- AirborneState.enter: reset fall/energy accumulators and, when moving
upward, unlock lane switching. -/
def enterAirborne (s : SlimeS) : SlimeS :=
  { s with fallDistanceSinceApex := 0, fastFallDistance := 0, prevYForFall := s.y,
           fastFallEnergy := 0, fastFallTime := 0,
           laneSwitchLocked := if s.vy < 0 then false else s.laneSwitchLocked,
           phase := SlimePhase.airborne }

/-! ## Dynamic difficulty windows (ChargingState.update, lines 39-55) -/

/-- Sweet grace window, shrunk by the landing difficulty snapshot. -/
def sweetGraceEff (s : SlimeS) : ℝ :=
  clampR (Config.sweetHoldGrace0 / s.landingDifficulty)
    Config.sweetHoldGraceMin Config.sweetHoldGrace0

/-- Fail-hold threshold, shrunk by the landing difficulty snapshot. -/
def failHoldEff (s : SlimeS) : ℝ :=
  clampR (Config.failHoldTime0 / s.landingDifficulty)
    Config.failHoldTimeMin Config.failHoldTime0

/-- Over-hold penalty acceleration gain, grown by difficulty. -/
def accelKeff (s : SlimeS) : ℝ :=
  Config.overHoldAccelK0 + Config.overHoldAccelKGain * (s.landingDifficulty - 1)

/-! ## Rating determination (ChargingState.launchActiveControlled, lines 361-409) -/

/-- Compression proximity as computed at release time. -/
def releaseProximity (s : SlimeS) : ℝ :=
  s.currentCompression / max 0.000001 s.targetCompression

/-- Rating determination on release, including the fast-fall anti-exploit
downgrade above the safe zone. -/
def determineRating (s : SlimeS) : Rating :=
  let proximity := releaseProximity s
  let wasInYellowZone := s.isInYellowZone = true ∧ s.reachedPeak = false
  let r :=
    if s.holdLockout = true ∨ s.chargeEfficiency ≤ Config.deadEfficiency then
      Rating.FAILED
    else if wasInYellowZone ∨ (proximity > 0.9 ∧ s.reachedPeak = false) then
      Rating.PERFECT
    else if s.reachedPeak = true ∧ s.postPeakHoldTime ≤ sweetGraceEff s then
      Rating.PERFECT
    else
      Rating.NORMAL
  let fastFallFrac := s.landingFastFallDistance / max 1 s.landingFallDistance
  if s.landingApexHeight > Config.safeZonePx ∧ fastFallFrac < 0.3 ∧ r = Rating.PERFECT
  then Rating.NORMAL else r

/-! ## Target height and launch speed (launchActiveControlled, lines 411-537) -/

/-- Target height for the next jump, per rating (the streak bonus widens the
growth ceiling for Perfect). -/
def targetHeightFor (s : SlimeS) (rating : Rating) (streakBonus : ℝ) : ℝ :=
  match rating with
  | Rating.PERFECT =>
      let fallDist := max 1 (if s.landingFallDistance = 0 then s.lastApexHeight
                             else s.landingFallDistance)
      let fastDist := max 0 s.landingFastFallDistance
      let distFactor := clampR (fastDist / fallDist) 0 1
      let potentialEnergy := Config.gravity * fallDist
      let energyFracRaw := clampR (s.fastFallEnergy / max 1 potentialEnergy) 0 1
      let dynamicNeedTime :=
        clampR (Config.fastFallChargeTime + 0.00005 * fallDist)
          Config.fastFallChargeTime 1.25
      let timeFactor := clampR (s.fastFallTime / max 0.000001 dynamicNeedTime) 0 1
      let energyFrac := clampR (energyFracRaw * distFactor * timeFactor) 0 1
      let growthRate := 0.15 + 0.05 * Real.logb 10 (1 + s.lastApexHeight / 100)
      let streakMult : ℝ := if streakBonus > 1 then 1.5 else 1
      let maxMult := 1 + growthRate * streakMult
      let targetMult := 0.85 + (maxMult - 0.85) * energyFrac
      let dh0 := 50 + s.lastApexHeight * 0.05
      s.lastApexHeight * targetMult + dh0 * energyFrac
  | Rating.NORMAL => s.lastApexHeight * 0.70
  | Rating.FAILED => s.lastApexHeight * 0.40

/-- Launch speed from target height: minimum-height floor, v = sqrt(2 g h),
minimum base launch speed, soft cap for non-Perfect, hard cap for everyone
(lines 519-537). -/
def launchSpeed (rating : Rating) (targetH : ℝ) : ℝ :=
  let flooredH := max targetH 50
  let vTarget := Real.sqrt (2 * Config.gravity * flooredH)
  let v1 := max vTarget |Config.baseLaunchVelocity|
  let v2 :=
    if rating ≠ Rating.PERFECT ∧ v1 > Config.softCapVelocity then
      Config.softCapVelocity + (v1 - Config.softCapVelocity) * Config.softCapFactor
    else v1
  min v2 Config.hardCapVelocity

/-! ## Release resolution (launchActiveControlled / tryLaunchActiveOrSettle) -/

/-- ChargingState.launchActiveControlled.  `deadAfterLanding` is the health
manager's isDead verdict after onLanding (the health system lives outside the
modelled core; it is an input here). -/
def launchActiveControlled (env : SlimeEnv) (s : SlimeS)
    (deadAfterLanding : Bool) : SlimeS :=
  let rating := determineRating s
  let s1 :=
    if rating = Rating.PERFECT then { s with perfectStreak := s.perfectStreak + 1 }
    else { s with perfectStreak := 0 }
  if deadAfterLanding then enterIdle env s1
  else
    let streakBonus : ℝ := if 3 ≤ s1.perfectStreak then 2 else 1
    let targetH := targetHeightFor s1 rating streakBonus
    let vLaunch := launchSpeed rating targetH
    let s2 := { s1 with lastLaunchRating := some rating,
                        groundRecoverTau := Config.releaseRecoverTime,
                        vy := -vLaunch }
    let s3 := enterAirborne s2
    let s4 := { s3 with currentCompression := 0 }
    let s5 := { s4 with y := slimeGroundY env s4 - 0.5 }
    { s5 with contactHasInput := false, reachedPeak := false, postPeakHoldTime := 0,
              holdLockout := false, isInYellowZone := false, prevVyForApex := s5.vy }

/-- ChargingState.tryLaunchActiveOrSettle (lines 333-356). -/
def tryLaunchActiveOrSettle (env : SlimeEnv) (s : SlimeS)
    (deadAfterLanding : Bool) : SlimeS :=
  if s.currentCompression ≤ Config.settleEps then
    enterIdle env { s with perfectStreak := 0 }
  else if s.holdLockout then
    enterIdle env { s with perfectStreak := 0 }
  else if s.chargeEfficiency ≤ Config.deadEfficiency then
    enterIdle env s
  else
    launchActiveControlled env s deadAfterLanding

/-! ## ChargingState.update -/

/-- Phase-1 body of ChargingState.update (lines 57-196 minus the purely
visual shake block): compression approach with a log-scaled time constant,
yellow-zone entry/tracking with a log-shrunk duration, and peak detection. -/
def compressPhaseStep (s : SlimeS) (dt : ℝ) : SlimeS :=
  let logFactorC := 1 + Config.compressLogScale *
    Real.logb 2 (1 + s.landingApexHeight / max 1 Config.difficultyRefHeight)
  let compressTimeEff := Config.compressTime * logFactorC
  let c1 := approach s.currentCompression s.targetCompression dt compressTimeEff
  let s1 := { s with currentCompression := c1 }
  let proximity := releaseProximity s1
  let s2 :=
    if proximity > 0.9 ∧ s1.isInYellowZone = false then
      { s1 with isInYellowZone := true, yellowZoneStartTime := 0 }
    else s1
  let s3 :=
    if s2.isInYellowZone then
      let s2a := { s2 with yellowZoneStartTime := s2.yellowZoneStartTime + dt }
      let logFactorY := 1 + Config.difficultyLogScale *
        Real.logb 2 (1 + s2a.landingApexHeight / max 1 Config.difficultyRefHeight)
      let yellowDurationEff := max Config.yellowDurationMin
        (Config.yellowDuration0 / logFactorY)
      if s2a.yellowZoneStartTime ≥ yellowDurationEff then
        { s2a with reachedPeak := true, postPeakHoldTime := 0, holdLockout := false,
                   chargeEfficiency := 1, currentCompression := s2a.targetCompression,
                   isInYellowZone := false }
      else s2a
    else s2
  if |s3.targetCompression - s3.currentCompression| ≤ Config.peakEps ∧
      s3.reachedPeak = false then
    { s3 with reachedPeak := true, postPeakHoldTime := 0, holdLockout := false,
              chargeEfficiency := 1, currentCompression := s3.targetCompression,
              isInYellowZone := false }
  else s3

/-- No-input absorb branch after peak (lines 215-238): compression relaxes;
on settling, a fall from above the safe zone is an instant death (FAILED
feedback), and the streak always resets. -/
def absorbStep (env : SlimeEnv) (s : SlimeS) (dt : ℝ) : SlimeS :=
  let c1 := approach s.currentCompression 0 dt Config.absorbRelaxTime
  let s1 := { s with currentCompression := c1 }
  if s1.currentCompression ≤ Config.settleEps then
    let s2 :=
      if s1.landingApexHeight > Config.safeZonePx then
        { s1 with lastLaunchRating := some Rating.FAILED }
      else s1
    enterIdle env { s2 with perfectStreak := 0 }
  else s1

/-- Holding-after-peak branch (lines 241-279): sweet grace, then accelerated
compression/efficiency fatigue, lockout past the fail-hold threshold, and a
missed-bounce death check on settle. -/
def overHoldStep (env : SlimeEnv) (s : SlimeS) (dt groundYi : ℝ) : SlimeS :=
  let s1 := { s with postPeakHoldTime := s.postPeakHoldTime + dt }
  if s1.postPeakHoldTime ≤ sweetGraceEff s1 then
    { s1 with currentCompression := s1.targetCompression, chargeEfficiency := 1 }
  else
    let over := s1.postPeakHoldTime - sweetGraceEff s1
    let accel := 1 + accelKeff s1 *
      (1 - Real.exp (-over / max 0.000001 Config.overHoldAccelTime))
    let s2 := if over ≥ failHoldEff s1 then { s1 with holdLockout := true } else s1
    let relaxTau := max 0.0001 (Config.relaxTime / accel)
    let fatigueTau := max 0.0001 (Config.fatigueTime / accel)
    let s3 := { s2 with
      currentCompression := approach s2.currentCompression 0 dt relaxTau,
      chargeEfficiency := approach s2.chargeEfficiency 0 dt fatigueTau }
    let s4 := { s3 with y := groundYi + s3.currentCompression }
    if s4.currentCompression ≤ Config.settleEps then
      if s4.holdLockout = true ∧
          s4.landingApexHeight / Config.pixelsPerMeter > 100 then
        enterIdle env { s4 with lastLaunchRating := some Rating.FAILED,
                                perfectStreak := 0 }
      else
        enterIdle env { s4 with perfectStreak := 0 }
    else s4

/-- Fallthrough relax branch after peak (lines 282-291). -/
def idleRelaxStep (env : SlimeEnv) (s : SlimeS) (dt groundYi : ℝ) : SlimeS :=
  let c1 := approach s.currentCompression 0 dt Config.idleRelaxAfterPeak
  let s1 := { s with currentCompression := c1 }
  let s2 := { s1 with y := groundYi + s1.currentCompression }
  if s2.currentCompression ≤ Config.settleEps then
    enterIdle env { s2 with perfectStreak := 0 }
  else s2

/-- ChargingState.update. -/
def chargingUpdate (env : SlimeEnv) (s : SlimeS) (dt : ℝ)
    (isSpaceDown justReleased deadAfterLanding : Bool) : SlimeS :=
  let groundYi := slimeGroundY env s
  let s0 := if isSpaceDown then { s with contactHasInput := true } else s
  if s0.reachedPeak = false then
    let s1 := compressPhaseStep s0 dt
    if justReleased = true ∧ s1.contactHasInput = true then
      tryLaunchActiveOrSettle env s1 deadAfterLanding
    else s1
  else
    if justReleased = true ∧ s0.contactHasInput = true then
      tryLaunchActiveOrSettle env s0 deadAfterLanding
    else if s0.contactHasInput = false ∧ isSpaceDown = false then
      absorbStep env s0 dt
    else if isSpaceDown then
      overHoldStep env s0 dt groundYi
    else
      idleRelaxStep env s0 dt groundYi

/-! ## AirborneState.update (the lane-aware version compiled into the build) -/

def airborneUpdate (env : SlimeEnv) (s : SlimeS) (dt : ℝ)
    (isSpaceDown justPressed : Bool) : SlimeS :=
  -- reset fastFallDistance on re-press
  let s0 : SlimeS := if justPressed then { s with fastFallDistance := 0 } else s
  -- 1) air control
  let s1 : SlimeS :=
    if isSpaceDown then
      let ht := s0.holdTime + dt
      let targetA := min (Config.baseFastFallAccel + Config.fastFallRamp * ht) Config.maxFastFallAccel
      { s0 with holdTime := ht, userAccel := approach s0.userAccel targetA dt 0.05 }
    else
      { s0 with holdTime := 0, userAccel := approach s0.userAccel 0 dt Config.releaseDecay }
  -- 2) integrate with two-tier terminal velocity
  let ay := Config.gravity + s1.userAccel
  let vyRaw := s1.vy + ay * dt
  let terminalVy : ℝ := if isSpaceDown then Config.terminalFastFallSpeed else Config.terminalFallSpeed
  let vy1 := if vyRaw > terminalVy then terminalVy else vyRaw
  let s2 : SlimeS := { s1 with vy := vy1, y := s1.y + vy1 * dt }
  -- fast-fall energy and time (capped terms)
  let s3 : SlimeS :=
    if isSpaceDown = true ∧ s2.vy > 0 ∧ s2.userAccel > 0 then
      let vEff := min s2.vy Config.energyVyCap
      let aEff := min s2.userAccel Config.energyAccelCap
      { s2 with fastFallEnergy := s2.fastFallEnergy + aEff * vEff * dt, fastFallTime := s2.fastFallTime + dt }
    else s2
  -- 3) apex detection
  let s4 : SlimeS :=
    if s3.prevVyForApex < 0 ∧ s3.vy ≥ 0 then
      let groundYi := slimeGroundY env s3
      { s3 with lastApexHeight := max 0 (groundYi - s3.y), fastFallEnergy := 0, fastFallTime := 0, fallDistanceSinceApex := 0, fastFallDistance := 0, prevYForFall := s3.y, laneSwitchLocked := true }
    else s3
  let s5 : SlimeS := { s4 with prevVyForApex := s4.vy }
  -- distance accumulation during descent
  let dy := s5.y - s5.prevYForFall
  let s6 : SlimeS :=
    if dy > 0 then
      { s5 with fallDistanceSinceApex := s5.fallDistanceSinceApex + dy, fastFallDistance := if isSpaceDown then s5.fastFallDistance + dy else s5.fastFallDistance, prevYForFall := s5.y }
    else { s5 with prevYForFall := s5.y }
  -- 4) ground contact
  let groundYi := slimeGroundY env s6
  if s6.y ≥ groundYi then
    let s7 : SlimeS := { s6 with y := groundYi, impactSpeed := max 0 s6.vy, landingFallDistance := s6.fallDistanceSinceApex, landingFastFallDistance := s6.fastFallDistance, userAccel := 0, holdTime := 0 }
    let rawX := Config.impactScale * (s7.impactSpeed * s7.impactSpeed)
    let s8 : SlimeS := { s7 with targetCompression := min rawX Config.maxDepth, overflow := max 0 (rawX - Config.maxDepth), vy := 0 }
    let actualFallDist : ℝ := if s8.landingFallDistance > 0 then s8.landingFallDistance else s8.lastApexHeight
    let s9 : SlimeS := { s8 with landingApexHeight := actualFallDist, landingDifficulty := max 1 (actualFallDist / max 1 Config.difficultyRefHeight) }
    enterCharging s9
  else s6

/-! ## IdleState.update -/

def idleUpdate (env : SlimeEnv) (s : SlimeS) (dt : ℝ) (justPressed : Bool) : SlimeS :=
  let groundYi := slimeGroundY env s
  let s1 := { s with y := groundYi, vy := 0,
                     currentCompression := approach s.currentCompression 0 dt 0.08 }
  if justPressed then
    let s2 := enterAirborne s1
    { s2 with vy := -|Config.baseLaunchVelocity|, y := groundYi - 0.5,
              prevVyForApex := -|Config.baseLaunchVelocity|,
              userAccel := 0, holdTime := 0 }
  else s1

/-! ## Slime.update (per fixed tick) -/

/-- The hard embedding-failsafe clamp of Slime.update (lines 210-215):
when not airborne, the player's centre never stays below the effective
ground surface. -/
def embedClamp (env : SlimeEnv) (s1 : SlimeS) : SlimeS :=
  if s1.phase ≠ SlimePhase.airborne ∧ s1.y > slimeGroundY env s1 then
    { s1 with y := slimeGroundY env s1 }
  else s1

/-- Slime.updateGroundDeform: the visual ground-deform follower. -/
def groundDeformStage (s2 : SlimeS) (dt : ℝ) : SlimeS :=
  if s2.phase = SlimePhase.charging then
    { s2 with groundDeform :=
        approach s2.groundDeform s2.currentCompression dt Config.deformFollowTime }
  else
    let d := approach s2.groundDeform 0 dt s2.groundRecoverTau
    { s2 with groundDeform := if d < 0.0001 then 0 else d }

/-- Slime.update: edge detection, state dispatch, the non-airborne
embedding failsafe clamp, and the visual ground-deform follower. -/
def slimeUpdate (env : SlimeEnv) (s : SlimeS) (deltaMs : ℝ)
    (isSpaceDown deadAfterLanding : Bool) : SlimeS :=
  let dt := deltaMs / 1000
  let justPressed := isSpaceDown && !s.prevSpaceDown
  let justReleased := !isSpaceDown && s.prevSpaceDown
  let s0 := { s with prevSpaceDown := isSpaceDown }
  let s1 :=
    match s0.phase with
    | SlimePhase.idle => idleUpdate env s0 dt justPressed
    | SlimePhase.airborne => airborneUpdate env s0 dt isSpaceDown justPressed
    | SlimePhase.charging =>
        chargingUpdate env s0 dt isSpaceDown justReleased deadAfterLanding
  groundDeformStage (embedClamp env s1) dt

/-! ## Fixed-timestep driver (GameScene.update, lines 688-769)

The driver is generic in the simulated system: `step` is one fixed-dt
simulation step (slime update + ground render + monster update in the
scene).  Time bookkeeping is exact rational arithmetic. -/

namespace Driver

def FIXED_DT : ℚ := 1 / 120
def MAX_FRAME_DT : ℚ := 1 / 4
def MAX_STEPS_PER_FRAME : ℕ := 8

/-- The catch-up while loop, with the remaining allowed step count as fuel:
runs a step while the accumulator holds at least FIXED_DT and the cap is not
reached.  Returns the remaining accumulator, the advanced system, and the
number of steps taken. -/
def runSteps {σ : Type _} (step : σ → σ) : ℕ → ℚ → σ → ℚ × σ × ℕ
  | 0, acc, s => (acc, s, 0)
  | n + 1, acc, s =>
      if FIXED_DT ≤ acc then
        let r := runSteps step n (acc - FIXED_DT) (step s)
        (r.1, r.2.1, r.2.2 + 1)
      else (acc, s, 0)

/-- One render frame of the driver: clamp the real delta, accumulate, run
capped catch-up steps, and drain the accumulator if the cap was hit. -/
def frame {σ : Type _} (step : σ → σ) (p : ℚ × σ) (delta : ℚ) : ℚ × σ :=
  let clamped := min delta MAX_FRAME_DT
  let r := runSteps step MAX_STEPS_PER_FRAME (p.1 + clamped) p.2
  if MAX_STEPS_PER_FRAME ≤ r.2.2 then (0, r.2.1) else (r.1, r.2.1)

/-- Steps executed during one frame. -/
def frameSteps {σ : Type _} (step : σ → σ) (p : ℚ × σ) (delta : ℚ) : ℕ :=
  (runSteps step MAX_STEPS_PER_FRAME (p.1 + min delta MAX_FRAME_DT) p.2).2.2

/-- A whole sequence of render frames. -/
def runFrames {σ : Type _} (step : σ → σ) (p : ℚ × σ) (deltas : List ℚ) : ℚ × σ :=
  deltas.foldl (frame step) p

/-- True when no frame of the run saturates the per-frame step cap. -/
def noSaturation {σ : Type _} (step : σ → σ) : ℚ × σ → List ℚ → Bool
  | _, [] => true
  | p, d :: ds =>
      decide (frameSteps step p d < MAX_STEPS_PER_FRAME) &&
        noSaturation step (frame step p d) ds

end Driver

/-! ## Deformable ground (src/objects/Ground.ts) -/

namespace GroundSim

def TENSION : ℝ := 180
def STIFFNESS : ℝ := 90
def DAMPING : ℝ := 18
def MAX_OFFSET : ℝ := 60
def BLOCK_SIZE : ℝ := 16

/-- Per-column spring state of the ground strip (`n` = BLOCKS_PER_ROW). -/
structure GState (n : ℕ) where
  yOffset : Fin n → ℝ
  yVel : Fin n → ℝ

/-- Initial ground: all offsets and velocities zero. -/
def initG (n : ℕ) : GState n := ⟨fun _ => 0, fun _ => 0⟩

/-- Offset clamp applied after each integration write. -/
def clampOffset (x : ℝ) : ℝ := max (-MAX_OFFSET * 0.3) (min MAX_OFFSET x)

/-- Contact column from the player's x position. -/
def centerCol (playerX : ℝ) : ℤ := ⌊(playerX + BLOCK_SIZE) / BLOCK_SIZE⌋

/-- Gaussian pressure bump (render step 1): applied within radius 6 of the
contact column while a positive depression depth is present. -/
def forceAt (n : ℕ) (depressionDepth playerX : ℝ) (i : Fin n) : ℝ :=
  let c := centerCol playerX
  if depressionDepth > 0 ∧ c - 6 ≤ (i : ℤ) ∧ (i : ℤ) ≤ c + 6 then
    let d : ℝ := (i : ℝ) - (c : ℝ)
    (depressionDepth * 80) * Real.exp (-(d * d) / (2 * 1.6 * 1.6))
  else 0

/-- Neighbour index to the left, clamped to the boundary. -/
def leftIdx {n : ℕ} (i : Fin n) : Fin n :=
  ⟨max 0 (i.val - 1), lt_of_le_of_lt (by omega) i.isLt⟩

/-- Neighbour index to the right, clamped to the boundary. -/
def rightIdx {n : ℕ} (i : Fin n) : Fin n :=
  ⟨min (n - 1) (i.val + 1), by omega⟩

/-- Semi-implicit Euler update of a single column (render step 2 body),
reading neighbours from the in-place array state. -/
def updateCol {n : ℕ} (force : Fin n → ℝ) (h : ℝ) (i : Fin n)
    (s : GState n) : GState n :=
  let y := s.yOffset i
  let v := s.yVel i
  let yL := s.yOffset (leftIdx i)
  let yR := s.yOffset (rightIdx i)
  let laplacian := yL - 2 * y + yR
  let a := TENSION * laplacian - STIFFNESS * y - DAMPING * v + force i
  let v1 := v + a * h
  let y1 := clampOffset (y + v1 * h)
  ⟨Function.update s.yOffset i y1, Function.update s.yVel i v1⟩

/-- One integration sub-step: columns 0 .. k-1 updated in place, in order. -/
def substepAux {n : ℕ} (force : Fin n → ℝ) (h : ℝ) : ℕ → GState n → GState n
  | 0, s => s
  | k + 1, s =>
      if hk : k < n then updateCol force h ⟨k, hk⟩ (substepAux force h k s)
      else substepAux force h k s

/-- One full sub-step over all columns. -/
def substep {n : ℕ} (force : Fin n → ℝ) (h : ℝ) (s : GState n) : GState n :=
  substepAux force h n s

/-- Ground.render for one fixed tick: build the force field, then integrate
with 2 sub-steps of h = dt/2. -/
def render {n : ℕ} (dt depressionDepth playerX : ℝ) (s : GState n) : GState n :=
  let force := forceAt n depressionDepth playerX
  let h := dt / 2
  substep force h (substep force h s)

/-- One render tick's inputs: dt, compression depth, player x. -/
structure Tick where
  dt : ℝ
  depth : ℝ
  playerX : ℝ

/-- A sequence of render ticks from a starting state. -/
def runRender {n : ℕ} (s : GState n) (ticks : List Tick) : GState n :=
  ticks.foldl (fun g t => render t.dt t.depth t.playerX g) s

/-- Ground.getSurfaceOffsetAt: top-layer offset at the column under x. -/
def getSurfaceOffsetAt {n : ℕ} (hn : 0 < n) (s : GState n) (x : ℝ) : ℝ :=
  let col := ⌊(x + BLOCK_SIZE) / BLOCK_SIZE⌋
  let clamped := (max 0 (min ((n : ℤ) - 1) col)).toNat
  s.yOffset ⟨min clamped (n - 1), by omega⟩

end GroundSim

/-! ## Bullet-time manager (BulletTimeManager) -/

namespace BulletTime

def TRANSITION_SPEED : ℝ := 8.0
def costPerUse : ℝ := 3
def cooldown : ℝ := 0.2
def minActivationHeight : ℝ := 50
def timeScaleMax : ℝ := 0.42
def timeScaleMin : ℝ := 0.20
def timeScaleTau : ℝ := 1500
def baseDuration : ℝ := 3.0
def maxExtraDuration : ℝ := 20.0
def durationTau : ℝ := 800
def maxEnergyBase : ℝ := 12.0
def maxEnergyExtended : ℝ := 16.0
def energyPerKill : ℝ := 0.2
def killRefundCap : ℝ := 1.0

structure BTState where
  isActive : Bool
  timeScale : ℝ
  targetTimeScale : ℝ
  energy : ℝ
  energyCap : ℝ
  killRefundAccumulated : ℝ
  activeTimer : ℝ
  cooldownTimer : ℝ
  currentDuration : ℝ

/-- BulletTimeManager.reset (per-run initial state). -/
def resetState : BTState :=
  { isActive := false, timeScale := 1, targetTimeScale := 1, energy := 12,
    energyCap := maxEnergyBase, killRefundAccumulated := 0, activeTimer := 0,
    cooldownTimer := 0, currentDuration := baseDuration }

/-- BulletTimeManager.deactivate. -/
def deactivate (s : BTState) : BTState :=
  if s.isActive = false then s
  else { s with isActive := false, targetTimeScale := 1, cooldownTimer := cooldown }

/-- The cooldown and active/auto-cancel stages of BulletTimeManager.update. -/
def updateTimers (s : BTState) (realDt playerHeightM : ℝ)
    (isAscending : Bool) : BTState :=
  let s1 : BTState :=
    if s.cooldownTimer > 0 then { s with cooldownTimer := s.cooldownTimer - realDt }
    else s
  if s1.isActive then
    let s1a : BTState := { s1 with activeTimer := s1.activeTimer + realDt }
    let shouldCancel : Bool :=
      decide (s1a.activeTimer ≥ s1a.currentDuration) || !isAscending ||
        decide (playerHeightM ≤ minActivationHeight)
    if shouldCancel then deactivate s1a else s1a
  else s1

/-- The smooth time-scale transition stage of BulletTimeManager.update. -/
def smoothTimeScale (s : BTState) (realDt : ℝ) : BTState :=
  if |s.timeScale - s.targetTimeScale| > 0.001 then
    let t := 1 - Real.exp (-TRANSITION_SPEED * realDt)
    { s with timeScale := s.timeScale + (s.targetTimeScale - s.timeScale) * t }
  else
    { s with timeScale := s.targetTimeScale }

/-- BulletTimeManager.update with real (unscaled) delta time: cooldown,
auto-cancel conditions, and the smooth time-scale transition. -/
def update (s : BTState) (realDt playerHeightM : ℝ) (isAscending : Bool) : BTState :=
  smoothTimeScale (updateTimers s realDt playerHeightM isAscending) realDt

/-- BulletTimeManager.activate (explicit, energy-gated).  Returns the new
state and whether activation happened. -/
def activate (s : BTState) (playerHeightM : ℝ) (isAscending : Bool) :
    BTState × Bool :=
  if s.isActive then (s, false)
  else if s.cooldownTimer > 0 then (s, false)
  else if playerHeightM ≤ minActivationHeight then (s, false)
  else if isAscending = false then (s, false)
  else if s.energy < costPerUse then (s, false)
  else
    ({ s with energy := s.energy - costPerUse, isActive := true, activeTimer := 0,
              targetTimeScale := timeScaleMax }, true)

/-- BulletTimeManager.forceActivateWithHeight: dynamic duration and time
scale from the predicted apex height. -/
def forceActivateWithHeight (s : BTState) (apexHeightM : ℝ) : BTState :=
  if s.isActive then s
  else
    let extraDuration := maxExtraDuration * (1 - Real.exp (-apexHeightM / durationTau))
    let dynamicTimeScale :=
      timeScaleMin + (timeScaleMax - timeScaleMin) * Real.exp (-apexHeightM / timeScaleTau)
    { s with currentDuration := baseDuration + extraDuration, isActive := true,
             activeTimer := 0, targetTimeScale := dynamicTimeScale }

/-- The smoothing stage never changes the target. -/
theorem smoothTimeScale_target (s : BTState) (realDt : ℝ) :
    (smoothTimeScale s realDt).targetTimeScale = s.targetTimeScale := by
  unfold smoothTimeScale
  split_ifs <;> rfl

/-- The smoothing stage moves timeScale toward the target without moving
past it. -/
theorem smooth_no_overshoot (s : BTState) (realDt : ℝ) (hdt : 0 ≤ realDt) :
    |(smoothTimeScale s realDt).timeScale -
        (smoothTimeScale s realDt).targetTimeScale| ≤
      |s.timeScale - (smoothTimeScale s realDt).targetTimeScale| := by
  rw [smoothTimeScale_target]
  unfold smoothTimeScale
  split_ifs with hgap
  · show |s.timeScale + (s.targetTimeScale - s.timeScale) *
        (1 - Real.exp (-TRANSITION_SPEED * realDt)) - s.targetTimeScale| ≤
      |s.timeScale - s.targetTimeScale|
    have hkey : s.timeScale + (s.targetTimeScale - s.timeScale) *
        (1 - Real.exp (-TRANSITION_SPEED * realDt)) - s.targetTimeScale =
        (s.timeScale - s.targetTimeScale) * Real.exp (-TRANSITION_SPEED * realDt) := by
      ring
    rw [hkey, abs_mul, abs_of_pos (Real.exp_pos _)]
    have hE1 : Real.exp (-TRANSITION_SPEED * realDt) ≤ 1 := by
      rw [Real.exp_le_one_iff]
      unfold TRANSITION_SPEED
      nlinarith
    exact mul_le_of_le_one_right (abs_nonneg _) hE1
  · show |s.targetTimeScale - s.targetTimeScale| ≤ |s.timeScale - s.targetTimeScale|
    simp

/-- Modelled from the spec: the timeScale-target formula the specification
prescribes for every activation,
timeScale = minScale + (maxScale - minScale) * e^(-height/tau). -/
def specTimeScaleTarget (heightM : ℝ) : ℝ :=
  timeScaleMin + (timeScaleMax - timeScaleMin) * Real.exp (-heightM / timeScaleTau)

/-- Modelled from the spec: the active-duration formula the specification
prescribes for every activation,
duration = baseDuration + maxExtra * (1 - e^(-height/tau)). -/
def specDurationTarget (heightM : ℝ) : ℝ :=
  baseDuration + maxExtraDuration * (1 - Real.exp (-heightM / durationTau))

end BulletTime

/-! ## Gesture classifier (GestureManager) -/

namespace Gesture

/-- Pointer intent; monotone once decided. -/
inductive Intent where
  | CANDIDATE
  | SWIPE
  | HOLD
deriving DecidableEq, Repr

/-- One active pointer session. -/
structure PointerState where
  id : ℕ
  startX : ℚ
  startY : ℚ
  startTime : ℚ
  currentX : ℚ
  currentY : ℚ
  intent : Intent
  swipeConsumed : Bool
  holdLocked : Bool
deriving DecidableEq, Repr

/-- Manager state: sessions in insertion (pointer-down) order, the global
swipe cooldown stamp and the global lane-switch lock. -/
structure GMState where
  pointers : List PointerState
  lastSwipeTime : ℚ
  laneSwitchLocked : Bool
deriving DecidableEq, Repr

/-- The result reported to the scene each frame. -/
structure GestureResult where
  isHoldActive : Bool
  swipeDirection : ℤ
  laneSwitchLocked : Bool
deriving DecidableEq, Repr

/-- Thresholds computed by updateScreenWidth from the configured ratios. -/
structure Thresholds where
  swipeDist : ℚ
  moveTol : ℚ
  holdDelay : ℚ
  swipeCooldown : ℚ
deriving DecidableEq, Repr

/-- GestureManager.updateScreenWidth: width-relative thresholds with floors,
and the configured hold delay / swipe cooldown (config.lane). -/
def thresholdsFor (width : ℚ) : Thresholds :=
  { swipeDist := max 18 (width * 0.03), moveTol := max 8 (width * 0.012),
    holdDelay := 80, swipeCooldown := 10 }

/-- Accumulator threaded through the per-pointer loop of update: the fields
of the result under construction plus the global mutable stamps. -/
structure Accum where
  isHoldActive : Bool
  swipeDirection : ℤ
  lastSwipeTime : ℚ
  locked : Bool
deriving DecidableEq, Repr

/-- The loop body of GestureManager.update for one pointer session (the
early returns of the source loop become an if chain on the intent). -/
def processPointer (th : Thresholds) (currentTime : ℚ) (acc : Accum)
    (p : PointerState) : Accum × PointerState :=
  let dx := p.currentX - p.startX
  let dy := p.currentY - p.startY
  let elapsed := currentTime - p.startTime
  if p.intent = Intent.HOLD then
    ({ acc with isHoldActive := true, locked := true }, p)
  else if p.intent = Intent.SWIPE then
    (acc, p)
  else
    if |dx| ≥ th.swipeDist ∧ |dx| > |dy| then
      let p1 := { p with intent := Intent.SWIPE }
      if p1.swipeConsumed = false ∧ acc.locked = false then
        if currentTime - acc.lastSwipeTime ≥ th.swipeCooldown then
          ({ acc with swipeDirection := if dx > 0 then 1 else -1,
                      lastSwipeTime := currentTime },
           { p1 with swipeConsumed := true })
        else (acc, p1)
      else (acc, p1)
    else if elapsed ≥ th.holdDelay ∧ |dx| < th.moveTol ∧ |dy| < th.moveTol then
      ({ acc with isHoldActive := true, locked := true },
       { p with intent := Intent.HOLD, holdLocked := true })
    else (acc, p)

/-- Fold of processPointer over the session list, in insertion order. -/
def processAll (th : Thresholds) (currentTime : ℚ) (acc : Accum) :
    List PointerState → Accum × List PointerState
  | [] => (acc, [])
  | p :: ps =>
      let r := processPointer th currentTime acc p
      let rest := processAll th currentTime r.1 ps
      (rest.1, r.2 :: rest.2)

/-- GestureManager.update: classify every active pointer and report the
combined hold/swipe verdict together with the global lock. -/
def update (th : Thresholds) (gm : GMState) (currentTime : ℚ) :
    GMState × GestureResult :=
  let acc0 : Accum := { isHoldActive := false, swipeDirection := 0,
                        lastSwipeTime := gm.lastSwipeTime,
                        locked := gm.laneSwitchLocked }
  let r := processAll th currentTime acc0 gm.pointers
  ({ pointers := r.2, lastSwipeTime := r.1.lastSwipeTime,
     laneSwitchLocked := r.1.locked },
   { isHoldActive := r.1.isHoldActive, swipeDirection := r.1.swipeDirection,
     laneSwitchLocked := r.1.locked })

end Gesture

/-! ## Lane-change request (Slime.requestLaneChange) -/

/-- Slime.getLaneCenterX. -/
def getLaneCenterX (screenWidth : ℝ) (lane : ℤ) : ℝ :=
  ((lane : ℝ) + 0.5) * (screenWidth / 3)

/-- Slime.requestLaneChange: silently rejected while not airborne, while
locked, or when the target lane falls outside [0, laneCount); on success the
lane, target x and facing direction update (the attack animation and the
movement tween are presentation only).  Total function: never throws. -/
def requestLaneChange (screenWidth : ℝ) (s : SlimeS) (direction : ℤ) :
    SlimeS × Bool :=
  if s.phase ≠ SlimePhase.airborne then (s, false)
  else if s.laneSwitchLocked then (s, false)
  else
    let newLane := s.currentLane + direction
    if newLane < 0 ∨ 3 ≤ newLane then (s, false)
    else
      ({ s with currentLane := newLane,
                targetLaneX := getLaneCenterX screenWidth newLane,
                facingDirection := direction }, true)

/-! ## Concrete objects used by witnesses and counterexamples -/

/-- A reference slime state: resting at the lane centre on flat ground. -/
def baseSlime : SlimeS :=
  { x := 270, y := 980, vy := 0, userAccel := 0, holdTime := 0,
    prevSpaceDown := false, fastFallEnergy := 0, fastFallTime := 0,
    fallDistanceSinceApex := 0, fastFallDistance := 0, prevYForFall := 980,
    landingFallDistance := 0, landingFastFallDistance := 0, impactSpeed := 0,
    targetCompression := 0, currentCompression := 0, reachedPeak := false,
    chargeEfficiency := 1, overflow := 0, contactHasInput := false,
    postPeakHoldTime := 0, holdLockout := false, prevVyForApex := 0,
    lastApexHeight := 0, landingApexHeight := 0, landingDifficulty := 1,
    groundDeform := 0, groundRecoverTau := 0.1, isInYellowZone := false,
    yellowZoneStartTime := 0, lastLaunchRating := none, perfectStreak := 0,
    phase := SlimePhase.idle, laneSwitchLocked := false, currentLane := 1,
    targetLaneX := 270, facingDirection := 1 }

/-- A flat-ground environment. -/
def env0 : SlimeEnv := { groundLevel := 1000, surf := fun _ => 0 }

/-! ## C9: invalid lane-change requests are rejected silently -/

/-- C9: a lane-change request made while not airborne, or while lane
switching is locked, or targeting a lane outside [0, laneCount), returns
false and leaves the state (in particular currentLane, targetLaneX and
facingDirection) unchanged; the handler is a total function, so it never
throws. -/
theorem C9_requestLaneChange_rejects_invalid (w : ℝ) (s : SlimeS) (d : ℤ)
    (h : s.phase ≠ SlimePhase.airborne ∨ s.laneSwitchLocked = true ∨
      s.currentLane + d < 0 ∨ 3 ≤ s.currentLane + d) :
    requestLaneChange w s d = (s, false) := by
  unfold requestLaneChange
  split_ifs with h1 h2
  · rfl
  · rfl
  · have hcond : s.currentLane + d < 0 ∨ 3 ≤ s.currentLane + d := by
      push_neg at h1
      rcases h with hph | hlk | hlo | hhi
      · exact absurd h1 hph
      · exact absurd hlk (by simpa using h2)
      · exact Or.inl hlo
      · exact Or.inr hhi
    show (if s.currentLane + d < 0 ∨ 3 ≤ s.currentLane + d then (s, false)
          else _) = (s, false)
    rw [if_pos hcond]

/-- Witness for C9 at a concrete input: an idle (not airborne) slime's
request is rejected with the state unchanged. -/
theorem C9_requestLaneChange_rejects_invalid_witness :
    requestLaneChange 540 baseSlime 1 = (baseSlime, false) :=
  C9_requestLaneChange_rejects_invalid 540 baseSlime 1 (Or.inl (by decide))

/-! ## C4: launch speed is monotone in target height and hard-capped -/

/-- The soft-cap stage of the launch-speed pipeline is monotone for a fixed
rating. -/
theorem softCapStage_mono (r : Rating) (a b : ℝ) (hab : a ≤ b) :
    (if r ≠ Rating.PERFECT ∧ a > Config.softCapVelocity then
        Config.softCapVelocity + (a - Config.softCapVelocity) * Config.softCapFactor
      else a) ≤
    (if r ≠ Rating.PERFECT ∧ b > Config.softCapVelocity then
        Config.softCapVelocity + (b - Config.softCapVelocity) * Config.softCapFactor
      else b) := by
  unfold Config.softCapVelocity Config.softCapFactor
  split_ifs with h1 h2 h2
  · linarith
  · exfalso
    exact h2 ⟨h1.1, by linarith [h1.2]⟩
  · rcases not_and_or.mp h1 with hr | ha
    · exact absurd h2.1 (by simpa using hr)
    · push_neg at ha
      nlinarith [h2.2]
  · exact hab

/-- C4: for each fixed rating, the launch-speed computation
(sqrt(2 g targetHeight) after the 50px floor, minimum base launch speed,
soft cap for non-Perfect, hard cap for everyone) is monotonically
non-decreasing in targetHeight, and its result never exceeds
hardCapVelocity for any input. -/
theorem C4_launchSpeed_monotone_and_capped :
    (∀ (r : Rating) (h1 h2 : ℝ), h1 ≤ h2 →
        launchSpeed r h1 ≤ launchSpeed r h2) ∧
    (∀ (r : Rating) (h : ℝ), launchSpeed r h ≤ Config.hardCapVelocity) := by
  constructor
  · intro r h1 h2 hle
    unfold launchSpeed
    refine min_le_min ?_ le_rfl
    apply softCapStage_mono
    apply max_le_max _ le_rfl
    apply Real.sqrt_le_sqrt
    have : max h1 50 ≤ max h2 50 := max_le_max hle le_rfl
    unfold Config.gravity
    nlinarith
  · intro r h
    unfold launchSpeed
    exact min_le_right _ _

/-- Witness for C4 at concrete inputs. -/
theorem C4_launchSpeed_monotone_and_capped_witness :
    launchSpeed Rating.PERFECT 100 ≤ launchSpeed Rating.PERFECT 200 ∧
    launchSpeed Rating.NORMAL 1000000 ≤ Config.hardCapVelocity :=
  ⟨C4_launchSpeed_monotone_and_capped.1 Rating.PERFECT 100 200 (by norm_num),
   C4_launchSpeed_monotone_and_capped.2 Rating.NORMAL 1000000⟩

/-! ## C6: ground offsets stay within the clamp interval -/

namespace GroundSim

/-- The offset clamp lands in the allowed interval. -/
theorem clampOffset_bounds (x : ℝ) :
    -0.3 * MAX_OFFSET ≤ clampOffset x ∧ clampOffset x ≤ MAX_OFFSET := by
  unfold clampOffset MAX_OFFSET
  constructor
  · have : (-0.3 * 60 : ℝ) = -60 * 0.3 := by norm_num
    rw [this]
    exact le_max_left _ _
  · exact max_le (by norm_num) (min_le_left _ _)

/-- Updating column i writes a clamped offset at i. -/
theorem updateCol_offset_self {n : ℕ} (force : Fin n → ℝ) (h : ℝ) (i : Fin n)
    (s : GState n) :
    -0.3 * MAX_OFFSET ≤ (updateCol force h i s).yOffset i ∧
    (updateCol force h i s).yOffset i ≤ MAX_OFFSET := by
  unfold updateCol
  simp only [Function.update_same]
  exact clampOffset_bounds _

/-- Updating column i leaves every other column's offset unchanged. -/
theorem updateCol_offset_other {n : ℕ} (force : Fin n → ℝ) (h : ℝ) (i j : Fin n)
    (hij : j ≠ i) (s : GState n) :
    (updateCol force h i s).yOffset j = s.yOffset j := by
  unfold updateCol
  simp only []
  exact Function.update_noteq hij _ _

/-- After the in-place pass has processed columns 0 .. k-1, each of those
columns holds a clamped offset. -/
theorem substepAux_bounds {n : ℕ} (force : Fin n → ℝ) (h : ℝ) :
    ∀ (k : ℕ) (s : GState n) (i : Fin n), i.val < k →
      -0.3 * MAX_OFFSET ≤ (substepAux force h k s).yOffset i ∧
      (substepAux force h k s).yOffset i ≤ MAX_OFFSET := by
  intro k
  induction k with
  | zero => intro s i hi; omega
  | succ k ih =>
      intro s i hi
      unfold substepAux
      by_cases hk : k < n
      · rw [dif_pos hk]
        by_cases hik : i = (⟨k, hk⟩ : Fin n)
        · rw [hik]
          exact updateCol_offset_self _ _ _ _
        · rw [updateCol_offset_other _ _ _ _ hik]
          refine ih _ i ?_
          have : i.val ≠ k := fun hv => hik (Fin.ext hv)
          omega
      · rw [dif_neg hk]
        exact ih _ i (by omega)

/-- Every column is clamped after one full sub-step. -/
theorem substep_bounds {n : ℕ} (force : Fin n → ℝ) (h : ℝ) (s : GState n)
    (i : Fin n) :
    -0.3 * MAX_OFFSET ≤ (substep force h s).yOffset i ∧
    (substep force h s).yOffset i ≤ MAX_OFFSET :=
  substepAux_bounds force h n s i i.isLt

/-- Every column is clamped after one render tick. -/
theorem render_bounds {n : ℕ} (dt depth px : ℝ) (s : GState n) (i : Fin n) :
    -0.3 * MAX_OFFSET ≤ (render dt depth px s).yOffset i ∧
    (render dt depth px s).yOffset i ≤ MAX_OFFSET := by
  unfold render
  exact substep_bounds _ _ _ _

end GroundSim

/-- C6: after any sequence of render ticks from the initial flat ground,
with any non-negative compression depths and any player positions, every
ground column's offset stays within [-0.3 * MAX_OFFSET, MAX_OFFSET]. -/
theorem C6_ground_offset_bounded {n : ℕ} (ticks : List GroundSim.Tick)
    (hdepth : ∀ t ∈ ticks, 0 ≤ t.depth) (i : Fin n) :
    -0.3 * GroundSim.MAX_OFFSET ≤
      (GroundSim.runRender (GroundSim.initG n) ticks).yOffset i ∧
    (GroundSim.runRender (GroundSim.initG n) ticks).yOffset i ≤
      GroundSim.MAX_OFFSET := by
  clear hdepth
  rcases List.eq_nil_or_concat ticks with rfl | ⟨ts, t, rfl⟩
  · unfold GroundSim.runRender GroundSim.initG GroundSim.MAX_OFFSET
    simp only [List.foldl_nil]
    norm_num
  · unfold GroundSim.runRender
    rw [List.concat_eq_append, List.foldl_append, List.foldl_cons, List.foldl_nil]
    exact GroundSim.render_bounds _ _ _ _ _

/-- Witness for C6 at a concrete run: one landing tick on a 4-column strip. -/
theorem C6_ground_offset_bounded_witness :
    (∀ t ∈ [GroundSim.Tick.mk (1 / 120) 5 100], 0 ≤ t.depth) ∧
    -0.3 * GroundSim.MAX_OFFSET ≤
      (GroundSim.runRender (GroundSim.initG 4)
        [GroundSim.Tick.mk (1 / 120) 5 100]).yOffset ⟨0, by norm_num⟩ := by
  have hd : ∀ t ∈ [GroundSim.Tick.mk (1 / 120) 5 100], (0 : ℝ) ≤ t.depth := by
    intro t ht
    simp only [List.mem_singleton] at ht
    subst ht
    norm_num
  exact ⟨hd, (C6_ground_offset_bounded _ hd _).1⟩

/-! ## C1: the Perfect rating is exactly the yellow-zone / grace-window
release, minus the anti-exploit downgrade -/

/-- When the release is live (enough compression, no lockout, efficiency
above the dead threshold), tryLaunchActiveOrSettle launches. -/
theorem tryLaunch_eq_launch (env : SlimeEnv) (s : SlimeS) (d : Bool)
    (hc : Config.settleEps < s.currentCompression) (hl : s.holdLockout = false)
    (he : Config.deadEfficiency < s.chargeEfficiency) :
    tryLaunchActiveOrSettle env s d = launchActiveControlled env s d := by
  unfold tryLaunchActiveOrSettle
  rw [if_neg (not_le.mpr hc), if_neg (by simp [hl]), if_neg (not_le.mpr he)]

/-- A surviving launch records exactly the determined rating as feedback. -/
theorem launch_rating (env : SlimeEnv) (s : SlimeS) :
    (launchActiveControlled env s false).lastLaunchRating =
      some (determineRating s) := by
  unfold launchActiveControlled
  simp only [Bool.false_eq_true, if_false]
  by_cases hp : determineRating s = Rating.PERFECT
  · rw [if_pos hp]
    rfl
  · rw [if_neg hp]
    rfl

/-- Rating-determination characterization: with no lockout, live efficiency,
a consistent yellow-zone flag и a target compression above the division
epsilon, the rating is PERFECT exactly on a yellow-zone or grace-window
release that the anti-exploit rule does not downgrade, and such a release
is downgraded to NORMAL whenever the rule fires. -/
theorem determineRating_spec (s : SlimeS)
    (hlock : s.holdLockout = false)
    (heff : Config.deadEfficiency < s.chargeEfficiency)
    (hflag : s.isInYellowZone = true → 0.9 < releaseProximity s)
    (ht : (0.000001 : ℝ) ≤ s.targetCompression) :
    (determineRating s = Rating.PERFECT ↔
      (((0.9 < s.currentCompression / s.targetCompression ∧ s.reachedPeak = false) ∨
        (s.reachedPeak = true ∧ s.postPeakHoldTime ≤ sweetGraceEff s)) ∧
       ¬(Config.safeZonePx < s.landingApexHeight ∧
          s.landingFastFallDistance / max 1 s.landingFallDistance < 0.3))) ∧
    ((((0.9 < s.currentCompression / s.targetCompression ∧ s.reachedPeak = false) ∨
        (s.reachedPeak = true ∧ s.postPeakHoldTime ≤ sweetGraceEff s)) ∧
      (Config.safeZonePx < s.landingApexHeight ∧
        s.landingFastFallDistance / max 1 s.landingFallDistance < 0.3)) →
     determineRating s = Rating.NORMAL) := by
  have hproxeq : releaseProximity s = s.currentCompression / s.targetCompression := by
    unfold releaseProximity
    rw [max_eq_right ht]
  have hfirst : ¬(s.holdLockout = true ∨ s.chargeEfficiency ≤ Config.deadEfficiency) := by
    rintro (h | h)
    · rw [hlock] at h
      exact Bool.false_ne_true h
    · exact absurd h (not_le.mpr heff)
  have hAiff : ((s.isInYellowZone = true ∧ s.reachedPeak = false) ∨
      (releaseProximity s > 0.9 ∧ s.reachedPeak = false)) ↔
      (0.9 < s.currentCompression / s.targetCompression ∧ s.reachedPeak = false) := by
    constructor
    · rintro (⟨hf, hp⟩ | ⟨hpr, hp⟩)
      · refine ⟨?_, hp⟩
        rw [← hproxeq]
        exact hflag hf
      · refine ⟨?_, hp⟩
        rw [← hproxeq]
        exact hpr
    · rintro ⟨h1, h2⟩
      refine Or.inr ⟨?_, h2⟩
      rw [hproxeq]
      exact h1
  unfold determineRating
  simp only [if_neg hfirst, hAiff]
  split_ifs with hA hD hB hD hD <;> simp_all

/-- C1: on a release that resolves a charge (live compression, no lockout,
efficiency above the dead threshold), the rating PERFECT is assigned iff the
release occurs in the yellow zone (compression proximity above 0.9 with the
peak not yet reached) or within the difficulty-shrunk post-peak grace
window, and the anti-exploit rule does not fire; whenever the landing apex
height exceeds the safe zone and the fast-fall distance fraction is below
0.3, the otherwise-Perfect release is downgraded to NORMAL. -/
theorem C1_perfect_rating_iff (env : SlimeEnv) (s : SlimeS)
    (hc : Config.settleEps < s.currentCompression)
    (hlock : s.holdLockout = false)
    (heff : Config.deadEfficiency < s.chargeEfficiency)
    (hflag : s.isInYellowZone = true → 0.9 < releaseProximity s)
    (ht : (0.000001 : ℝ) ≤ s.targetCompression) :
    ((tryLaunchActiveOrSettle env s false).lastLaunchRating =
        some Rating.PERFECT ↔
      (((0.9 < s.currentCompression / s.targetCompression ∧ s.reachedPeak = false) ∨
        (s.reachedPeak = true ∧ s.postPeakHoldTime ≤ sweetGraceEff s)) ∧
       ¬(Config.safeZonePx < s.landingApexHeight ∧
          s.landingFastFallDistance / max 1 s.landingFallDistance < 0.3))) ∧
    ((((0.9 < s.currentCompression / s.targetCompression ∧ s.reachedPeak = false) ∨
        (s.reachedPeak = true ∧ s.postPeakHoldTime ≤ sweetGraceEff s)) ∧
      (Config.safeZonePx < s.landingApexHeight ∧
        s.landingFastFallDistance / max 1 s.landingFallDistance < 0.3)) →
     (tryLaunchActiveOrSettle env s false).lastLaunchRating =
        some Rating.NORMAL) := by
  rw [tryLaunch_eq_launch env s false hc hlock heff, launch_rating]
  obtain ⟨h1, h2⟩ := determineRating_spec s hlock heff hflag ht
  constructor
  · rw [Option.some_inj]
    exact h1
  · intro hx
    rw [Option.some_inj]
    exact h2 hx

/-- Witness for C1: a concrete yellow-zone release (proximity 0.95, peak not
reached, below the safe zone) is rated PERFECT. -/
theorem C1_perfect_rating_iff_witness :
    (tryLaunchActiveOrSettle env0
      { baseSlime with phase := SlimePhase.charging, targetCompression := 100,
                       currentCompression := 95, isInYellowZone := true,
                       landingApexHeight := 1000, landingFallDistance := 1000,
                       landingFastFallDistance := 600,
                       lastApexHeight := 1000 } false).lastLaunchRating =
      some Rating.PERFECT := by
  have h := C1_perfect_rating_iff env0
    { baseSlime with phase := SlimePhase.charging, targetCompression := 100,
                     currentCompression := 95, isInYellowZone := true,
                     landingApexHeight := 1000, landingFallDistance := 1000,
                     landingFastFallDistance := 600, lastApexHeight := 1000 }
    (by norm_num [Config.settleEps])
    (by rfl)
    (by norm_num [Config.deadEfficiency, baseSlime])
    (by intro hfl; norm_num [releaseProximity])
    (by norm_num)
  refine h.1.mpr ⟨Or.inl ⟨by norm_num, rfl⟩, ?_⟩
  rintro ⟨habs, -⟩
  norm_num [Config.safeZonePx, Config.pixelsPerMeter] at habs

/-! ## C2: release under hold-lockout -/

/-- A locked-out (or already settled) release always settles to idle with
the streak reset and no feedback assigned. -/
theorem tryLaunch_lockout_aux (env : SlimeEnv) (s : SlimeS) (d : Bool)
    (h : s.holdLockout = true) :
    (tryLaunchActiveOrSettle env s d).phase = SlimePhase.idle ∧
    (tryLaunchActiveOrSettle env s d).vy = 0 ∧
    (tryLaunchActiveOrSettle env s d).perfectStreak = 0 ∧
    (tryLaunchActiveOrSettle env s d).lastLaunchRating = s.lastLaunchRating := by
  unfold tryLaunchActiveOrSettle
  by_cases hc : s.currentCompression ≤ Config.settleEps
  · rw [if_pos hc]
    exact ⟨rfl, rfl, rfl, rfl⟩
  · rw [if_neg hc, if_pos (by rw [h])]
    exact ⟨rfl, rfl, rfl, rfl⟩

/-- Counterexample to C2: with holdLockout set (and compression still live),
a release settles back to idle with zero velocity and assigns no rating at
all — it does not produce a FAILED launch from targetHeight =
apexHeight * 0.40 as the claim states. -/
theorem C2_lockout_release_counterexample :
    (tryLaunchActiveOrSettle env0
      { baseSlime with phase := SlimePhase.charging, holdLockout := true,
                       currentCompression := 10, targetCompression := 100,
                       lastApexHeight := 1000 } false).phase = SlimePhase.idle ∧
    (tryLaunchActiveOrSettle env0
      { baseSlime with phase := SlimePhase.charging, holdLockout := true,
                       currentCompression := 10, targetCompression := 100,
                       lastApexHeight := 1000 } false).vy = 0 ∧
    (tryLaunchActiveOrSettle env0
      { baseSlime with phase := SlimePhase.charging, holdLockout := true,
                       currentCompression := 10, targetCompression := 100,
                       lastApexHeight := 1000 } false).lastLaunchRating = none := by
  unfold tryLaunchActiveOrSettle
  rw [if_neg (by norm_num [Config.settleEps]), if_pos (by rfl)]
  exact ⟨rfl, rfl, rfl⟩

/-- C2 amended: once holdLockout is set, any subsequent release never
launches: the state settles to idle with zero velocity, the perfect streak
resets to 0, and no rating feedback is assigned (in particular no FAILED
launch with targetHeight = apexHeight * 0.40 happens; that formula sits in
launchActiveControlled, which a locked-out release never reaches). -/
theorem C2_lockout_release_settles (env : SlimeEnv) (s : SlimeS) (d : Bool)
    (h : s.holdLockout = true) :
    (tryLaunchActiveOrSettle env s d).phase = SlimePhase.idle ∧
    (tryLaunchActiveOrSettle env s d).vy = 0 ∧
    (tryLaunchActiveOrSettle env s d).perfectStreak = 0 ∧
    (tryLaunchActiveOrSettle env s d).lastLaunchRating = s.lastLaunchRating :=
  tryLaunch_lockout_aux env s d h

/-- Witness for the amended C2 at a concrete locked-out release. -/
theorem C2_lockout_release_settles_witness :
    (tryLaunchActiveOrSettle env0
      { baseSlime with phase := SlimePhase.charging, holdLockout := true,
                       currentCompression := 50, targetCompression := 100,
                       perfectStreak := 4 } false).phase = SlimePhase.idle ∧
    (tryLaunchActiveOrSettle env0
      { baseSlime with phase := SlimePhase.charging, holdLockout := true,
                       currentCompression := 50, targetCompression := 100,
                       perfectStreak := 4 } false).perfectStreak = 0 := by
  have h := C2_lockout_release_settles env0
    { baseSlime with phase := SlimePhase.charging, holdLockout := true,
                     currentCompression := 50, targetCompression := 100,
                     perfectStreak := 4 } false rfl
  exact ⟨h.1, h.2.2.1⟩

/-! ## C3: perfect-streak bookkeeping over all charge outcomes -/

/-- Counterexample to C3: a dead-efficiency release (efficiency at or below
the dead threshold, no lockout, live compression) settles to idle WITHOUT
resetting perfectStreak — here a streak of 2 survives, where the claim
demands it be set to exactly 0 on this non-launch failure path. -/
theorem C3_dead_efficiency_keeps_streak_counterexample :
    (tryLaunchActiveOrSettle env0
      { baseSlime with phase := SlimePhase.charging, currentCompression := 10,
                       targetCompression := 100, chargeEfficiency := 0.04,
                       perfectStreak := 2 } false).phase = SlimePhase.idle ∧
    (tryLaunchActiveOrSettle env0
      { baseSlime with phase := SlimePhase.charging, currentCompression := 10,
                       targetCompression := 100, chargeEfficiency := 0.04,
                       perfectStreak := 2 } false).perfectStreak = 2 := by
  unfold tryLaunchActiveOrSettle
  rw [if_neg (by norm_num [Config.settleEps]), if_neg (by simp [baseSlime]),
    if_pos (by norm_num [Config.deadEfficiency])]
  exact ⟨rfl, rfl⟩

/-- C3 amended: perfectStreak is set to 0 on every Normal or Failed launch
outcome and incremented by exactly 1 on a Perfect launch; the non-launch
failure paths (compression-settled release, lockout release, no-input
absorb settle, over-hold fatigue settle, relax settle) all reset it to 0 —
EXCEPT the dead-efficiency release, which settles to idle leaving
perfectStreak unchanged. -/
theorem C3_streak_update_rules (env : SlimeEnv) (s : SlimeS) (dt gy : ℝ)
    (d : Bool) :
    (Config.settleEps < s.currentCompression → s.holdLockout = false →
      Config.deadEfficiency < s.chargeEfficiency →
      (tryLaunchActiveOrSettle env s d).perfectStreak =
        (if determineRating s = Rating.PERFECT then s.perfectStreak + 1 else 0)) ∧
    (s.currentCompression ≤ Config.settleEps →
      (tryLaunchActiveOrSettle env s d).perfectStreak = 0) ∧
    (s.holdLockout = true →
      (tryLaunchActiveOrSettle env s d).perfectStreak = 0) ∧
    (Config.settleEps < s.currentCompression → s.holdLockout = false →
      s.chargeEfficiency ≤ Config.deadEfficiency →
      (tryLaunchActiveOrSettle env s d).perfectStreak = s.perfectStreak) ∧
    (approach s.currentCompression 0 dt Config.absorbRelaxTime ≤ Config.settleEps →
      (absorbStep env s dt).perfectStreak = 0) ∧
    (sweetGraceEff s < s.postPeakHoldTime + dt →
      (overHoldStep env s dt gy).currentCompression ≤ Config.settleEps →
      (overHoldStep env s dt gy).perfectStreak = 0) ∧
    (approach s.currentCompression 0 dt Config.idleRelaxAfterPeak ≤ Config.settleEps →
      (idleRelaxStep env s dt gy).perfectStreak = 0) := by
  refine ⟨?_, ?_, ?_, ?_, ?_, ?_, ?_⟩
  · intro hc hl he
    rw [tryLaunch_eq_launch env s d hc hl he]
    unfold launchActiveControlled
    by_cases hp : determineRating s = Rating.PERFECT
    · rw [if_pos hp]
      by_cases hd : d = true
      · subst hd
        rw [if_pos rfl, if_pos hp]
        rfl
      · rw [if_neg (by simpa using hd), if_pos hp]
        rfl
    · rw [if_neg hp]
      by_cases hd : d = true
      · subst hd
        rw [if_pos rfl, if_neg hp]
        rfl
      · rw [if_neg (by simpa using hd), if_neg hp]
        rfl
  · intro hc
    unfold tryLaunchActiveOrSettle
    rw [if_pos hc]
    rfl
  · intro hl
    exact (tryLaunch_lockout_aux env s d hl).2.2.1
  · intro hc hl he
    unfold tryLaunchActiveOrSettle
    rw [if_neg (not_le.mpr hc), if_neg (by simp [hl]), if_pos he]
    rfl
  · intro hset
    unfold absorbStep
    rw [if_pos hset]
    by_cases hz : s.landingApexHeight > Config.safeZonePx
    · rw [if_pos hz]
      rfl
    · rw [if_neg hz]
      rfl
  · intro hgrace hsettle
    simp only [sweetGraceEff, clampR] at hgrace
    simp only [overHoldStep, sweetGraceEff, clampR] at hsettle ⊢
    split_ifs at hsettle ⊢ <;>
      first
        | rfl
        | (exfalso; linarith)
        | exact absurd hsettle (by assumption)
        | simp_all [enterIdle]
  · intro hset
    unfold idleRelaxStep
    rw [if_pos hset]
    rfl

/-- Witness for the amended C3 at a concrete input: a locked-out release
resets the streak to 0. -/
theorem C3_streak_update_rules_witness :
    (tryLaunchActiveOrSettle env0
      { baseSlime with phase := SlimePhase.charging, holdLockout := true,
                       currentCompression := 50, perfectStreak := 3 }
      false).perfectStreak = 0 :=
  (C3_streak_update_rules env0
    { baseSlime with phase := SlimePhase.charging, holdLockout := true,
                     currentCompression := 50, perfectStreak := 3 }
    0.01 980 false).2.2.1 rfl

/-! ## C7: bullet-time activation targets and smooth interpolation -/

/-- Counterexample to C7: an explicit activation (resetState has full energy
and no cooldown; player ascending at 1500 m) sets the timeScale target to
the constant timeScaleMax and leaves the duration at its previous value,
instead of the height-dependent formulas the claim prescribes for every
activation (at 1500 m the formula values differ strictly). -/
theorem C7_explicit_activation_counterexample :
    (BulletTime.activate BulletTime.resetState 1500 true).1.targetTimeScale =
      BulletTime.timeScaleMax ∧
    BulletTime.specTimeScaleTarget 1500 < BulletTime.timeScaleMax ∧
    (BulletTime.activate BulletTime.resetState 1500 true).1.currentDuration =
      BulletTime.baseDuration ∧
    BulletTime.baseDuration < BulletTime.specDurationTarget 1500 := by
  have hact : (BulletTime.activate BulletTime.resetState 1500 true).1 = { BulletTime.resetState with energy := BulletTime.resetState.energy - BulletTime.costPerUse, isActive := true, activeTimer := 0, targetTimeScale := BulletTime.timeScaleMax } := by
    unfold BulletTime.activate
    rw [if_neg (by simp [BulletTime.resetState]),
      if_neg (by norm_num [BulletTime.resetState]),
      if_neg (by norm_num [BulletTime.minActivationHeight]),
      if_neg (by simp),
      if_neg (by norm_num [BulletTime.resetState, BulletTime.costPerUse])]
  refine ⟨by rw [hact], ?_, by rw [hact]; rfl, ?_⟩
  · unfold BulletTime.specTimeScaleTarget BulletTime.timeScaleMax
      BulletTime.timeScaleMin BulletTime.timeScaleTau
    have h1 : Real.exp (-(1500 : ℝ) / 1500) < 1 := by
      rw [Real.exp_lt_one_iff]
      norm_num
    have h2 : (0 : ℝ) < Real.exp (-(1500 : ℝ) / 1500) := Real.exp_pos _
    nlinarith
  · unfold BulletTime.specDurationTarget BulletTime.baseDuration
      BulletTime.maxExtraDuration BulletTime.durationTau
    have h1 : Real.exp (-(1500 : ℝ) / 800) < 1 := by
      rw [Real.exp_lt_one_iff]
      norm_num
    nlinarith

/-- C7 amended: only the forced/auto activation with a target apex height
computes the timeScale target as minScale + (maxScale - minScale) *
e^(-height/tau) and the duration as baseDuration + maxExtraDuration *
(1 - e^(-height/tau)); an explicit activation sets the timeScale target to
the constant timeScaleMax and leaves the duration unchanged; and every
update moves timeScale toward the (possibly deactivation-reset) target
without ever moving past it. -/
theorem C7_bulletTime_targets (s : BulletTime.BTState)
    (h heightM realDt : ℝ) (asc : Bool) :
    (s.isActive = false →
      (BulletTime.forceActivateWithHeight s h).targetTimeScale =
          BulletTime.specTimeScaleTarget h ∧
      (BulletTime.forceActivateWithHeight s h).currentDuration =
          BulletTime.specDurationTarget h) ∧
    ((BulletTime.activate s heightM asc).2 = true →
      (BulletTime.activate s heightM asc).1.targetTimeScale =
          BulletTime.timeScaleMax ∧
      (BulletTime.activate s heightM asc).1.currentDuration =
          s.currentDuration) ∧
    (0 ≤ realDt →
      |(BulletTime.update s realDt heightM asc).timeScale -
          (BulletTime.update s realDt heightM asc).targetTimeScale| ≤
        |s.timeScale - (BulletTime.update s realDt heightM asc).targetTimeScale|) := by
  refine ⟨?_, ?_, ?_⟩
  · intro hact
    unfold BulletTime.forceActivateWithHeight
    rw [if_neg (by simp [hact])]
    exact ⟨rfl, rfl⟩
  · intro hok
    unfold BulletTime.activate at hok ⊢
    split_ifs at hok ⊢ <;>
      first
        | exact ⟨rfl, rfl⟩
        | exact absurd hok (by simp)
  · intro hdt
    have hts : (BulletTime.updateTimers s realDt heightM asc).timeScale =
        s.timeScale := by
      simp only [BulletTime.updateTimers, BulletTime.deactivate]
      split_ifs <;> rfl
    unfold BulletTime.update
    rw [← hts]
    exact BulletTime.smooth_no_overshoot _ realDt hdt

/-- Witness for the amended C7: a forced activation from the reset state at
800 m takes the spec's timeScale-target value. -/
theorem C7_bulletTime_targets_witness :
    (BulletTime.forceActivateWithHeight BulletTime.resetState 800).targetTimeScale =
      BulletTime.specTimeScaleTarget 800 :=
  ((C7_bulletTime_targets BulletTime.resetState 800 100 0.01 true).1 rfl).1

/-! ## C8: two simultaneous pointer sessions, swipe + hold -/

/-- A pointer session that has held still since time 0. -/
def holdPtr : Gesture.PointerState :=
  { id := 1, startX := 100, startY := 100, startTime := 0, currentX := 102,
    currentY := 101, intent := Gesture.Intent.CANDIDATE, swipeConsumed := false,
    holdLocked := false }

/-- A pointer session that has dragged 40 px to the right. -/
def swipePtr : Gesture.PointerState :=
  { id := 2, startX := 300, startY := 100, startTime := 0, currentX := 340,
    currentY := 105, intent := Gesture.Intent.CANDIDATE, swipeConsumed := false,
    holdLocked := false }

/-- The configured thresholds at the 540 px design width. -/
theorem thresholds540 :
    Gesture.thresholdsFor 540 =
      { swipeDist := 18, moveTol := 8, holdDelay := 80, swipeCooldown := 10 } := by
  unfold Gesture.thresholdsFor
  have h1 : ((540 : ℚ) * 0.03) ≤ 18 := by norm_num
  have h2 : ((540 : ℚ) * 0.012) ≤ 8 := by norm_num
  rw [max_eq_left h1, max_eq_left h2]

/-- Counterexample to C8: with the hold session registered before the swipe
session, one update call at t = 100 ms classifies the hold (which sets the
global lane-switch lock) and that lock then suppresses the other pointer's
swipe: the result reports isHoldActive = true but swipeDirection = 0, not
the simultaneous swipeDirection ≠ 0 the claim requires. -/
theorem C8_hold_blocks_swipe_counterexample :
    (Gesture.update (Gesture.thresholdsFor 540)
        { pointers := [holdPtr, swipePtr], lastSwipeTime := 0,
          laneSwitchLocked := false } 100).2 =
      { isHoldActive := true, swipeDirection := 0, laneSwitchLocked := true } := by
  rw [thresholds540]
  have hH : Gesture.processPointer
      { swipeDist := 18, moveTol := 8, holdDelay := 80, swipeCooldown := 10 } 100
      { isHoldActive := false, swipeDirection := 0, lastSwipeTime := 0,
        locked := false } holdPtr =
      ({ isHoldActive := true, swipeDirection := 0, lastSwipeTime := 0,
         locked := true },
       { holdPtr with intent := Gesture.Intent.HOLD, holdLocked := true }) := by
    unfold Gesture.processPointer holdPtr
    rw [if_neg (by decide), if_neg (by decide),
      if_neg (by rintro ⟨hx, -⟩; norm_num at hx),
      if_pos ⟨by norm_num, by norm_num, by norm_num⟩]
  have hS : Gesture.processPointer
      { swipeDist := 18, moveTol := 8, holdDelay := 80, swipeCooldown := 10 } 100
      { isHoldActive := true, swipeDirection := 0, lastSwipeTime := 0,
        locked := true } swipePtr =
      ({ isHoldActive := true, swipeDirection := 0, lastSwipeTime := 0,
         locked := true },
       { swipePtr with intent := Gesture.Intent.SWIPE }) := by
    unfold Gesture.processPointer swipePtr
    rw [if_neg (by decide), if_neg (by decide),
      if_pos ⟨by norm_num, by norm_num⟩,
      if_neg (by rintro ⟨-, hlk⟩; exact absurd hlk (by decide))]
  unfold Gesture.update
  simp only [Gesture.processAll, hH, hS]

/-- C8 amended: the two sessions are classified independently (the swipe
pointer ends up SWIPE, the hold pointer ends up HOLD), and the update
reports swipeDirection ≠ 0 and isHoldActive = true in the same result
whenever the swipe session precedes the hold session in registration order
(no prior lock, cooldown elapsed); in the opposite order the hold sets the
global lane-switch lock which suppresses the swipe direction, as the
counterexample shows. -/
theorem C8_swipe_and_hold_same_result (th : Gesture.Thresholds)
    (pS pH : Gesture.PointerState) (lastT t : ℚ)
    (hSint : pS.intent = Gesture.Intent.CANDIDATE)
    (hScons : pS.swipeConsumed = false)
    (hSdx : |pS.currentX - pS.startX| ≥ th.swipeDist)
    (hSdom : |pS.currentX - pS.startX| > |pS.currentY - pS.startY|)
    (hcool : t - lastT ≥ th.swipeCooldown)
    (hHint : pH.intent = Gesture.Intent.CANDIDATE)
    (hHel : t - pH.startTime ≥ th.holdDelay)
    (hHdx : |pH.currentX - pH.startX| < th.moveTol)
    (hHdy : |pH.currentY - pH.startY| < th.moveTol)
    (htol : th.moveTol ≤ th.swipeDist) :
    (Gesture.update th
        { pointers := [pS, pH], lastSwipeTime := lastT,
          laneSwitchLocked := false } t).2.isHoldActive = true ∧
    (Gesture.update th
        { pointers := [pS, pH], lastSwipeTime := lastT,
          laneSwitchLocked := false } t).2.swipeDirection =
      (if pS.currentX - pS.startX > 0 then 1 else -1) ∧
    (Gesture.update th
        { pointers := [pS, pH], lastSwipeTime := lastT,
          laneSwitchLocked := false } t).2.swipeDirection ≠ 0 ∧
    (Gesture.update th
        { pointers := [pS, pH], lastSwipeTime := lastT,
          laneSwitchLocked := false } t).1.pointers.map Gesture.PointerState.intent =
      [Gesture.Intent.SWIPE, Gesture.Intent.HOLD] := by
  have hHnotswipe : ¬(|pH.currentX - pH.startX| ≥ th.swipeDist ∧
      |pH.currentX - pH.startX| > |pH.currentY - pH.startY|) := by
    rintro ⟨hgex, -⟩
    linarith
  have hupd : Gesture.update th
      { pointers := [pS, pH], lastSwipeTime := lastT,
        laneSwitchLocked := false } t =
      ({ pointers := [{ pS with intent := Gesture.Intent.SWIPE, swipeConsumed := true }, { pH with intent := Gesture.Intent.HOLD, holdLocked := true }], lastSwipeTime := t, laneSwitchLocked := true },
       { isHoldActive := true, swipeDirection := if pS.currentX - pS.startX > 0 then 1 else -1, laneSwitchLocked := true }) := by
    unfold Gesture.update
    simp only [Gesture.processAll, Gesture.processPointer, hSint, hHint, hScons,
      hHnotswipe, if_pos (And.intro hSdx hSdom), if_pos hcool,
      if_pos (And.intro hHel (And.intro hHdx hHdy)), if_neg hHnotswipe]
    simp
  rw [hupd]
  refine ⟨rfl, rfl, ?_, rfl⟩
  by_cases hpos : pS.currentX - pS.startX > 0
  · rw [if_pos hpos]
    norm_num
  · rw [if_neg hpos]
    norm_num

/-- Witness for the amended C8: swipe session first, hold session second,
both reported in one update. -/
theorem C8_swipe_and_hold_same_result_witness :
    (Gesture.update (Gesture.thresholdsFor 540)
        { pointers := [swipePtr, holdPtr], lastSwipeTime := 0,
          laneSwitchLocked := false } 100).2.isHoldActive = true ∧
    (Gesture.update (Gesture.thresholdsFor 540)
        { pointers := [swipePtr, holdPtr], lastSwipeTime := 0,
          laneSwitchLocked := false } 100).2.swipeDirection ≠ 0 := by
  have h := C8_swipe_and_hold_same_result (Gesture.thresholdsFor 540)
    swipePtr holdPtr 0 100
    rfl rfl
    (by rw [thresholds540]; norm_num [swipePtr])
    (by norm_num [swipePtr])
    (by rw [thresholds540]; norm_num)
    rfl
    (by rw [thresholds540]; norm_num [holdPtr])
    (by rw [thresholds540]; norm_num [holdPtr])
    (by rw [thresholds540]; norm_num [holdPtr])
    (by rw [thresholds540]; norm_num)
  exact ⟨h.1, h.2.2.1⟩

/-! ## C5: fixed-timestep determinism under frame division -/

namespace Driver

/-- Characterization of the catch-up loop: it iterates the step function,
consumes FIXED_DT per step, stays within its fuel, leaves less than
FIXED_DT exactly when it stops below the cap, and keeps the accumulator
non-negative. -/
theorem runSteps_spec {σ : Type _} (step : σ → σ) :
    ∀ (fuel : ℕ) (acc : ℚ) (s : σ),
      (runSteps step fuel acc s).2.1 = step^[(runSteps step fuel acc s).2.2] s ∧
      (runSteps step fuel acc s).1 =
        acc - (runSteps step fuel acc s).2.2 * FIXED_DT ∧
      (runSteps step fuel acc s).2.2 ≤ fuel ∧
      ((runSteps step fuel acc s).2.2 < fuel →
        (runSteps step fuel acc s).1 < FIXED_DT) ∧
      (0 ≤ acc → 0 ≤ (runSteps step fuel acc s).1) := by
  intro fuel
  induction fuel with
  | zero =>
      intro acc s
      simp only [runSteps]
      refine ⟨rfl, by push_cast; ring, le_rfl, fun h => absurd h (by omega),
        fun h => h⟩
  | succ n ih =>
      intro acc s
      by_cases h : FIXED_DT ≤ acc
      · obtain ⟨h1, h2, h3, h4, h5⟩ := ih (acc - FIXED_DT) (step s)
        simp only [runSteps, if_pos h]
        refine ⟨?_, ?_, by omega, ?_, ?_⟩
        · rw [h1, ← Function.iterate_succ_apply]
        · rw [h2]
          push_cast
          ring
        · intro hlt
          exact h4 (by omega)
        · intro hacc
          have hDT : (0 : ℚ) < FIXED_DT := by norm_num [FIXED_DT]
          exact h5 (by linarith)
      · simp only [runSteps, if_neg h]
        push_neg at h
        refine ⟨rfl, by push_cast; ring, by omega, fun _ => h, fun hr => hr⟩

/-- With at least fuel*FIXED_DT available, the loop runs to its cap. -/
theorem runSteps_full {σ : Type _} (step : σ → σ) :
    ∀ (fuel : ℕ) (acc : ℚ) (s : σ), (fuel : ℚ) * FIXED_DT ≤ acc →
      (runSteps step fuel acc s).2.2 = fuel := by
  intro fuel
  induction fuel with
  | zero => intro acc s _; rfl
  | succ n ih =>
      intro acc s hge
      have hDT : (0 : ℚ) < FIXED_DT := by norm_num [FIXED_DT]
      have hn0 : (0 : ℚ) ≤ (n : ℚ) * FIXED_DT := by positivity
      have h : FIXED_DT ≤ acc := by
        push_cast at hge
        nlinarith
      simp only [runSteps, if_pos h]
      have := ih (acc - FIXED_DT) (step s) (by push_cast at hge ⊢; linarith)
      omega

/-- One non-saturating frame consumes its whole (unclamped) delta in whole
steps, leaving an accumulator residue in [0, FIXED_DT). -/
theorem frame_spec {σ : Type _} (step : σ → σ) (acc : ℚ) (s : σ) (d : ℚ)
    (hacc0 : 0 ≤ acc) (hd : 0 ≤ d)
    (hnosat : frameSteps step (acc, s) d < MAX_STEPS_PER_FRAME) :
    frame step (acc, s) d =
      (acc + d - (frameSteps step (acc, s) d) * FIXED_DT,
       step^[frameSteps step (acc, s) d] s) ∧
    0 ≤ acc + d - (frameSteps step (acc, s) d) * FIXED_DT ∧
    acc + d - (frameSteps step (acc, s) d) * FIXED_DT < FIXED_DT := by
  have hmin : min d MAX_FRAME_DT = d := by
    by_cases hdM : d ≤ MAX_FRAME_DT
    · exact min_eq_left hdM
    · exfalso
      push_neg at hdM
      have hge : (MAX_STEPS_PER_FRAME : ℚ) * FIXED_DT ≤ acc + min d MAX_FRAME_DT := by
        rw [min_eq_right hdM.le]
        norm_num [FIXED_DT, MAX_FRAME_DT, MAX_STEPS_PER_FRAME]
        linarith
      have hfull := runSteps_full step MAX_STEPS_PER_FRAME
        (acc + min d MAX_FRAME_DT) s hge
      simp only [frameSteps] at hnosat
      rw [hfull] at hnosat
      exact absurd hnosat (lt_irrefl _)
  have hfsd : frameSteps step (acc, s) d =
      (runSteps step MAX_STEPS_PER_FRAME (acc + d) s).2.2 := by
    simp only [frameSteps]
    rw [hmin]
  obtain ⟨h1, h2, h3, h4, h5⟩ := runSteps_spec step MAX_STEPS_PER_FRAME (acc + d) s
  rw [hfsd] at hnosat ⊢
  have hframe : frame step (acc, s) d =
      ((runSteps step MAX_STEPS_PER_FRAME (acc + d) s).1,
       (runSteps step MAX_STEPS_PER_FRAME (acc + d) s).2.1) := by
    simp only [frame]
    rw [hmin, if_neg (by omega)]
  rw [hframe]
  refine ⟨?_, ?_, ?_⟩
  · rw [Prod.ext_iff]
    exact ⟨by rw [h2], by rw [h1]⟩
  · rw [← h2]
    exact h5 (by linarith)
  · rw [← h2]
    exact h4 hnosat

/-- Invariant of a non-saturating run: the simulation state is the step
function iterated a number of times determined by the total accumulated
time alone, and the residue stays in [0, FIXED_DT). -/
theorem runFrames_spec {σ : Type _} (step : σ → σ) :
    ∀ (l : List ℚ) (acc : ℚ) (s : σ), 0 ≤ acc → acc < FIXED_DT →
      (∀ d ∈ l, 0 ≤ d) → noSaturation step (acc, s) l = true →
      ∃ k : ℕ, runFrames step (acc, s) l =
          (acc + l.sum - k * FIXED_DT, step^[k] s) ∧
        0 ≤ acc + l.sum - k * FIXED_DT ∧
        acc + l.sum - k * FIXED_DT < FIXED_DT := by
  intro l
  induction l with
  | nil =>
      intro acc s h0 h1 _ _
      refine ⟨0, ?_, by simpa using h0, by simpa using h1⟩
      simp [runFrames]
  | cons d ds ih =>
      intro acc s h0 h1 hdl hnosat
      rw [noSaturation, Bool.and_eq_true, decide_eq_true_eq] at hnosat
      obtain ⟨hfs, hrest⟩ := hnosat
      have hd : 0 ≤ d := hdl d (List.mem_cons_self d ds)
      obtain ⟨hfr, hge, hlt⟩ := frame_spec step acc s d h0 hd hfs
      have hstep : runFrames step (acc, s) (d :: ds) =
          runFrames step (frame step (acc, s) d) ds := by
        unfold runFrames
        rw [List.foldl_cons]
      rw [hfr] at hstep hrest
      obtain ⟨k, hk, hk0, hk1⟩ := ih _ _ hge hlt
        (fun x hx => hdl x (List.mem_cons_of_mem d hx)) hrest
      have harith : acc + d - (frameSteps step (acc, s) d : ℚ) * FIXED_DT +
          ds.sum - (k : ℚ) * FIXED_DT =
          acc + (d :: ds).sum -
            ((k + frameSteps step (acc, s) d : ℕ) : ℚ) * FIXED_DT := by
        rw [List.sum_cons]
        push_cast
        ring
      refine ⟨k + frameSteps step (acc, s) d, ?_, ?_, ?_⟩
      · rw [hstep, hk, Function.iterate_add_apply, harith]
      · rw [← harith]
        exact hk0
      · rw [← harith]
        exact hk1

end Driver

/-- C5: for all sequences of non-negative real frame deltas with the same
total time, the fixed-timestep driver produces identical simulation output
independent of how the total is divided into frames, provided no frame
saturates the MAX_STEPS_PER_FRAME cap. -/
theorem C5_fixed_timestep_frame_invariance {σ : Type _} (step : σ → σ) (s0 : σ)
    (l1 l2 : List ℚ) (h1 : ∀ d ∈ l1, 0 ≤ d) (h2 : ∀ d ∈ l2, 0 ≤ d)
    (hsum : l1.sum = l2.sum)
    (hn1 : Driver.noSaturation step (0, s0) l1 = true)
    (hn2 : Driver.noSaturation step (0, s0) l2 = true) :
    (Driver.runFrames step (0, s0) l1).2 = (Driver.runFrames step (0, s0) l2).2 := by
  have hDTpos : (0 : ℚ) < Driver.FIXED_DT := by norm_num [Driver.FIXED_DT]
  obtain ⟨k1, he1, hb1a, hb1b⟩ := Driver.runFrames_spec step l1 0 s0 le_rfl
    hDTpos h1 hn1
  obtain ⟨k2, he2, hb2a, hb2b⟩ := Driver.runFrames_spec step l2 0 s0 le_rfl
    hDTpos h2 hn2
  have hk : k1 = k2 := by
    rw [hsum] at hb1a hb1b
    have h12 : (k1 : ℚ) < (k2 : ℚ) + 1 := by nlinarith
    have h21 : (k2 : ℚ) < (k1 : ℚ) + 1 := by nlinarith
    have h12n : k1 < k2 + 1 := by exact_mod_cast h12
    have h21n : k2 < k1 + 1 := by exact_mod_cast h21
    omega
  rw [he1, he2, hk]

/-- Witness for C5: one 1/60 s frame versus two 1/120 s frames leave the
iterated-step state identical. -/
theorem C5_fixed_timestep_frame_invariance_witness :
    (∀ d ∈ [(1 : ℚ) / 60], 0 ≤ d) ∧
    (Driver.runFrames Nat.succ ((0 : ℚ), (0 : ℕ)) [1 / 60]).2 =
      (Driver.runFrames Nat.succ ((0 : ℚ), (0 : ℕ)) [1 / 120, 1 / 120]).2 := by
  have ha : ∀ d ∈ [(1 : ℚ) / 60], 0 ≤ d := by
    intro d hd
    simp only [List.mem_singleton] at hd
    subst hd
    norm_num
  have hb : ∀ d ∈ [(1 : ℚ) / 120, 1 / 120], 0 ≤ d := by
    intro d hd
    rcases List.mem_cons.mp hd with h | h
    · subst h; norm_num
    · simp only [List.mem_singleton] at h
      subst h
      norm_num
  have hn1 : Driver.noSaturation Nat.succ ((0 : ℚ), (0 : ℕ)) [1 / 60] = true := by
    norm_num [Driver.noSaturation, Driver.frameSteps, Driver.frame,
      Driver.runSteps, Driver.FIXED_DT, Driver.MAX_FRAME_DT,
      Driver.MAX_STEPS_PER_FRAME, min_def]
  have hn2 : Driver.noSaturation Nat.succ ((0 : ℚ), (0 : ℕ))
      [1 / 120, 1 / 120] = true := by
    norm_num [Driver.noSaturation, Driver.frameSteps, Driver.frame,
      Driver.runSteps, Driver.FIXED_DT, Driver.MAX_FRAME_DT,
      Driver.MAX_STEPS_PER_FRAME, min_def]
  exact ⟨ha, C5_fixed_timestep_frame_invariance Nat.succ 0 [1 / 60]
    [1 / 120, 1 / 120] ha hb (by norm_num) hn1 hn2⟩

/-! ## C10: the player is never left embedded below the ground surface -/

/-- The deform follower leaves position, phase and x untouched. -/
theorem groundDeformStage_fields (s : SlimeS) (dt : ℝ) :
    (groundDeformStage s dt).y = s.y ∧ (groundDeformStage s dt).x = s.x ∧
    (groundDeformStage s dt).phase = s.phase := by
  unfold groundDeformStage
  split_ifs <;> exact ⟨rfl, rfl, rfl⟩

/-- The embed clamp preserves phase and x, and guarantees the non-airborne
player sits at or above the effective ground surface. -/
theorem embedClamp_spec (env : SlimeEnv) (s1 : SlimeS) :
    (embedClamp env s1).phase = s1.phase ∧ (embedClamp env s1).x = s1.x ∧
    ((embedClamp env s1).phase ≠ SlimePhase.airborne →
      (embedClamp env s1).y ≤ slimeGroundY env (embedClamp env s1)) := by
  unfold embedClamp
  split_ifs with h
  · refine ⟨rfl, rfl, fun _ => ?_⟩
    exact le_of_eq rfl
  · refine ⟨rfl, rfl, fun hph => ?_⟩
    rw [not_and_or] at h
    rcases h with h | h
    · exact absurd hph (by simpa using h)
    · exact le_of_not_lt (by simpa using h)

/-- After the embed clamp and the deform follower, a non-airborne player
sits at or above the effective ground surface. -/
theorem clamp_then_deform_safe (env : SlimeEnv) (s1 : SlimeS) (dt : ℝ)
    (h : (groundDeformStage (embedClamp env s1) dt).phase ≠
      SlimePhase.airborne) :
    (groundDeformStage (embedClamp env s1) dt).y ≤
      slimeGroundY env (groundDeformStage (embedClamp env s1) dt) := by
  obtain ⟨hdy, hdx, hdp⟩ := groundDeformStage_fields (embedClamp env s1) dt
  obtain ⟨hcp, hcx, hcy⟩ := embedClamp_spec env s1
  rw [hdp] at h
  rw [hdy]
  have hy := hcy h
  calc (embedClamp env s1).y ≤ slimeGroundY env (embedClamp env s1) := hy
    _ = slimeGroundY env (groundDeformStage (embedClamp env s1) dt) := by
        unfold slimeGroundY
        rw [hdx]

/-- C10: after any per-tick Slime.update whose resulting state is not
Airborne, the player's y never exceeds the effective ground surface y at
the player's x — the hard clamp failsafe guarantees this for every input,
hence for all input sequences. -/
theorem C10_never_embedded_when_grounded (env : SlimeEnv) (s : SlimeS)
    (deltaMs : ℝ) (isSpaceDown deadAfterLanding : Bool)
    (h : (slimeUpdate env s deltaMs isSpaceDown deadAfterLanding).phase ≠
      SlimePhase.airborne) :
    (slimeUpdate env s deltaMs isSpaceDown deadAfterLanding).y ≤
      slimeGroundY env (slimeUpdate env s deltaMs isSpaceDown deadAfterLanding) :=
  clamp_then_deform_safe env _ _ h

/-- Witness for C10: an idle slime with no input stays at the surface. -/
theorem C10_never_embedded_when_grounded_witness :
    (slimeUpdate env0 baseSlime 8 false false).phase ≠ SlimePhase.airborne ∧
    (slimeUpdate env0 baseSlime 8 false false).y ≤
      slimeGroundY env0 (slimeUpdate env0 baseSlime 8 false false) := by
  have hstage : (slimeUpdate env0 baseSlime 8 false false).phase =
      (idleUpdate env0 { baseSlime with prevSpaceDown := false } (8 / 1000)
        (false && !baseSlime.prevSpaceDown)).phase := by
    have h := groundDeformStage_fields
      (embedClamp env0 (idleUpdate env0 { baseSlime with prevSpaceDown := false }
        (8 / 1000) (false && !baseSlime.prevSpaceDown))) (8 / 1000)
    have h2 := embedClamp_spec env0
      (idleUpdate env0 { baseSlime with prevSpaceDown := false } (8 / 1000)
        (false && !baseSlime.prevSpaceDown))
    exact h.2.2.trans h2.1
  have hidle : (idleUpdate env0 { baseSlime with prevSpaceDown := false } (8 / 1000)
      (false && !baseSlime.prevSpaceDown)).phase = SlimePhase.idle := by
    unfold idleUpdate
    rw [if_neg (by decide)]
    rfl
  have hphase : (slimeUpdate env0 baseSlime 8 false false).phase ≠
      SlimePhase.airborne := by
    rw [hstage, hidle]
    decide
  exact ⟨hphase, C10_never_embedded_when_grounded env0 baseSlime 8 false false hphase⟩

end Game

end
